import Mathlib

/-!
# Verification of the forklift-management access-control core

Shallow embedding of the access-control core of the forklift-management
web application, and proofs of the specification claims about it.

Embedded source files:
* `app/core/authz.py`  — role predicates and assignment-based predicates;
* `app/routes/auth.py` — in-memory session store (create / validate / logout);
* `app/middleware.py`  — `require_auth` and `admin_only` request gates;
* `main.py`            — middleware stacking order and the `/healthz` route.

Modelling conventions:
* Python dynamic values that can appear in `id` / `role` / assignment
  fields are modelled by `PyV` (`vint`, `vstr`, `vother`); Python `None`
  is modelled by Lean `none` of an `Option`, never by a `PyV` value.
  `vother` stands for any value on which `int(...)` raises.
* An attribute of an object is `Option (Option PyV)`: the outer layer is
  `hasattr` (attribute existence), the inner layer is whether the value
  is Python `None`.
* The session table (a Python dict) is a function `Token → Option SessionRec`.
* `datetime.now()` instants are natural numbers (seconds); `timedelta(days=1)`
  is the constant `sessionLifetime = 86400`.
* Python `str.strip()/str.lower()` and `int(str)` are modelled on the
  character list of the string (ASCII behaviour, which covers every
  constant the code compares against).
-/

/-- A non-`None` Python value that can sit in an id or role field.
`vother` stands for any value that is neither an `int` nor a `str`
(so `int(...)` raises `TypeError` on it). -/
inductive PyV where
  | vint : Int → PyV
  | vstr : String → PyV
  | vother : PyV
deriving DecidableEq, Repr

/-- ASCII lower-casing of one character, the behaviour of Python
`str.lower()` on the ASCII range. -/
def asciiLower (c : Char) : Char :=
  if 'A' ≤ c ∧ c ≤ 'Z' then Char.ofNat (c.toNat + 32) else c

/-- Characters stripped by Python `str.strip()` (ASCII whitespace). -/
def isPySpace (c : Char) : Bool :=
  c = ' ' || c = '\t' || c = '\n' || c = '\r'

/-- Strip leading and trailing whitespace from a character list. -/
def stripChars (l : List Char) : List Char :=
  ((l.dropWhile isPySpace).reverse.dropWhile isPySpace).reverse

/-- Python `value.strip().lower()` on a string value. -/
def pyStripLower (s : String) : String :=
  String.mk ((stripChars s.data).map asciiLower)

/-- Value of a list of decimal digits. -/
def digitsToNat (l : List Char) : Nat :=
  l.foldl (fun n c => n * 10 + (c.toNat - 48)) 0

/-- Python `int(s)` on a string: optional surrounding whitespace, an
optional sign, then a nonempty run of decimal digits; anything else
raises (modelled as `none`). -/
def pyStrToInt (s : String) : Option Int :=
  match stripChars s.data with
  | [] => none
  | c :: cs =>
    if c = '-' then
      if cs ≠ [] ∧ cs.all Char.isDigit then some (-(digitsToNat cs : Int)) else none
    else if c = '+' then
      if cs ≠ [] ∧ cs.all Char.isDigit then some (digitsToNat cs : Int) else none
    else if (c :: cs).all Char.isDigit then some (digitsToNat (c :: cs) : Int) else none

/-- Python `int(v)` on a non-`None` value: identity on ints, string
parsing on strings, raises (`none`) on everything else. -/
def pyToInt : PyV → Option Int
  | .vint n => some n
  | .vstr s => pyStrToInt s
  | .vother => none

/-- Prefix test on character lists (first argument is the candidate
prefix). -/
def leadingChars : List Char → List Char → Bool
  | [], _ => true
  | _ :: _, [] => false
  | c :: cs, d :: ds => (c == d) && leadingChars cs ds

/-- String prefix test on the character lists; the behaviour of Python
`str.startswith` used by the middleware path matching. -/
def pathStartsWith (path p : String) : Bool :=
  leadingChars p.data path.data

/-! ## `app/core/authz.py` — the authorization engine -/

/-- The loosely-typed "current user" dictionary attached by the
middleware: `{"id", "name", "email", "role"}`, each value possibly
absent (Python `None` or missing key collapse: `dict.get` returns
`None` for both). -/
structure UserDict where
  uid : Option PyV := none
  name : Option PyV := none
  email : Option PyV := none
  role : Option PyV := none
deriving DecidableEq, Repr

/-- Embeds `authz._normalized_role` (authz.py:110-116): the trimmed,
lower-cased role string, `""` when the principal is absent or the role
field is missing or not a string. -/
def _normalized_role : Option UserDict → String
  | none => ""
  | some u =>
    match u.role with
    | some (.vstr s) => pyStripLower s
    | _ => ""

/-- Embeds `authz.is_admin` (authz.py:41-47). -/
def is_admin (current_user : Option UserDict) : Bool :=
  _normalized_role current_user == "admin"

/-- Embeds `authz.is_supervisor` (authz.py:50-56). -/
def is_supervisor (current_user : Option UserDict) : Bool :=
  _normalized_role current_user == "supervisor"

/-- Embeds `authz.is_user` (authz.py:59-67): role in `{"user", "teknisi"}`. -/
def is_user (current_user : Option UserDict) : Bool :=
  _normalized_role current_user == "user" || _normalized_role current_user == "teknisi"

/-- Embeds `authz._safe_user_id` (authz.py:119-126): `int(current_user["id"])`
when present and coercible, otherwise `None`. -/
def _safe_user_id : Option UserDict → Option Int
  | none => none
  | some u => u.uid.bind pyToInt

/-- The embedded `user` relationship object of an assignment record:
only its `id` attribute is consulted (`getattr(user_rel, "id", None)`,
missing attribute and `None` value collapse). -/
structure UserObj where
  oid : Option PyV := none
deriving DecidableEq, Repr

/-- One record of a job's `assigned` collection. Each attribute is
`Option (Option PyV)`: outer layer = `hasattr`, inner layer = whether
the attribute value is Python `None`. -/
structure AssignEntry where
  user_id : Option (Option PyV) := none
  user : Option (Option UserObj) := none
  aid : Option (Option PyV) := none
deriving DecidableEq, Repr

/-- A job-like object, exposing an `assigned` attribute that is either
missing/`None` (`none`) or a list of assignment records. -/
structure Job where
  assigned : Option (List AssignEntry) := none
deriving DecidableEq, Repr

/-- The uid value selected for one entry by the loop body of
`_extract_assigned_user_ids` (authz.py:149-159), before the `int(...)`
coercion: the `user_id` attribute when present and non-`None`; else the
loaded `user` relationship's `id`; else, only when the entry exposes an
`id` attribute and exposes neither a `user` nor a `user_id` attribute,
the entry's own `id`. -/
def selectUid (e : AssignEntry) : Option PyV :=
  let uid1 := e.user_id.join
  let uid2 :=
    match uid1 with
    | some v => some v
    | none =>
      match e.user.join with
      | some u => u.oid
      | none => none
  match uid2 with
  | some v => some v
  | none =>
    if e.aid.isSome && e.user.isNone && e.user_id.isNone then e.aid.join else none

/-- Embeds `authz._extract_assigned_user_ids` (authz.py:129-168): the set of
integer user ids of a job's `assigned` collection; a selected value on
which `int(...)` raises is skipped (`continue`), contributing nothing. -/
def _extract_assigned_user_ids (job_obj : Job) : Finset Int :=
  match job_obj.assigned with
  | none => ∅
  | some l =>
    if l.isEmpty then ∅
    else l.foldl (fun s e =>
      match (selectUid e).bind pyToInt with
      | some n => insert n s
      | none => s) ∅

/-- Embeds `authz.is_assigned_to_pm` (authz.py:70-85): admins and supervisors
are always allowed; otherwise membership of the safe user id in the
extracted assignment set, `False` when the user id or the job is absent. -/
def is_assigned_to_pm (current_user : Option UserDict) (job : Option Job) : Bool :=
  if is_admin current_user || is_supervisor current_user then true
  else
    match _safe_user_id current_user, job with
    | none, _ => false
    | _, none => false
    | some uid, some j => uid ∈ _extract_assigned_user_ids j

/-- Embeds `authz.is_assigned_to_workshop` (authz.py:88-103): textually the
same algorithm as `is_assigned_to_pm`, applied to workshop jobs. -/
def is_assigned_to_workshop (current_user : Option UserDict) (job : Option Job) : Bool :=
  if is_admin current_user || is_supervisor current_user then true
  else
    match _safe_user_id current_user, job with
    | none, _ => false
    | _, none => false
    | some uid, some j => uid ∈ _extract_assigned_user_ids j

example : is_admin (some { role := some (.vstr " Admin ") }) = true := by decide
example : is_admin (some { role := some (.vint 3) }) = false := by decide
example : pyStrToInt "  -42 " = some (-42) := by decide
example : pyStrToInt "abc" = none := by decide
example : pyToInt (.vstr "+7") = some 7 := by decide
example :
    _extract_assigned_user_ids
      { assigned := some [{ user_id := some (some (.vint 5)) }] } = {5} := by decide
example :
    _extract_assigned_user_ids
      { assigned := some [{ user := some (some { oid := some (.vint 9) }) }] } = {9} := by decide
example : is_assigned_to_pm (some { uid := some (.vint 1), role := some (.vstr "admin") }) none = true := by decide

/-! ## `app/routes/auth.py` — the in-memory session store -/

/-- Session tokens are opaque strings (`secrets.token_hex(16)`). -/
abbrev Token := String

/-- One value of the `active_sessions` dict (auth.py:34-40): the cached
identity fields plus the expiry instant. -/
structure SessionRec where
  user_id : Int
  role : String
  name : String
  email : String
  expiry : Nat
deriving DecidableEq, Repr

/-- The `active_sessions` module-level dict: token → session record. -/
def Store := Token → Option SessionRec

/-- The empty session table (process start). -/
def emptyStore : Store := fun _ => none

/-- Seconds in `timedelta(days=1)`, the session lifetime (auth.py:33). -/
def sessionLifetime : Nat := 86400

/-- Embeds `auth.create_session` (auth.py:30-41): inserts (dict assignment, so
overwriting on the astronomically unlikely token collision) a record
with `expiry = now + 1 day`. The random token is a parameter of the
model; the function returns the updated table, the caller knows `tok`. -/
def create_session (store : Store) (tok : Token) (user_id : Int)
    (role name email : String) (now : Nat) : Store :=
  fun t => if t = tok then some ⟨user_id, role, name, email, now + sessionLifetime⟩ else store t

/-- Deletion of one key from the session dict (`del active_sessions[tok]`). -/
def eraseToken (store : Store) (tok : Token) : Store :=
  fun t => if t = tok then none else store t

/-- The SessionStore `Validate` operation, the token-table logic shared
verbatim by `middleware.require_auth` (middleware.py:29-47) and
`auth.get_current_user` (auth.py:43-54): a falsy or unknown token is
absent; a known token with `expiry < now` is deleted and absent;
otherwise the session record is returned and the table is unchanged.
Returns the result together with the (possibly updated) table. -/
def validate_session (store : Store) (cookie : Option Token) (now : Nat) :
    Option SessionRec × Store :=
  match cookie with
  | none => (none, store)
  | some tok =>
    if tok = "" then (none, store)
    else
      match store tok with
      | none => (none, store)
      | some s =>
        if s.expiry < now then (none, eraseToken store tok)
        else (some s, store)

/-- Embeds `auth.logout` (auth.py:88-98), restricted to its effect on the
session table: deletes the presented cookie's entry if it exists. -/
def logout (store : Store) (cookie : Option Token) : Store :=
  match cookie with
  | none => store
  | some tok =>
    if tok = "" then store
    else
      match store tok with
      | none => store
      | some _ => eraseToken store tok

/-! ## `app/middleware.py` and `main.py` — the request gate -/

/-- Outcome of the middleware pipeline for one request: either the
downstream handler is reached (with the `request.state.user` dict that
was attached, if any), or a redirect response aborts the request. -/
inductive GateResult where
  | next (user : Option UserDict)
  | redirect (location : String) (statusCode : Nat)
deriving DecidableEq, Repr

/-- The `public_paths` prefix allowlist of `require_auth`
(middleware.py:14-19). -/
def public_paths : List String :=
  ["/auth/login", "/auth/logout", "/auth/forgot-password", "/static/"]

/-- The `request.state.user` dict built from a validated session
(middleware.py:50-55). -/
def sessionUser (s : SessionRec) : UserDict :=
  { uid := some (.vint s.user_id), name := some (.vstr s.name),
    email := some (.vstr s.email), role := some (.vstr s.role) }

/-- Embeds `middleware.require_auth` (middleware.py:9-58): public-prefix
bypass (including the tokenised `/auth/reset-password/` flow), then the
lazy-expiry session validation, redirecting to the login page with 303
on a missing/unknown/expired token, else attaching the session's user
dict and calling the downstream handler. -/
def require_auth (path : String) (cookie : Option Token) (store : Store) (now : Nat) :
    GateResult × Store :=
  if public_paths.any (fun p => pathStartsWith path p) then (.next none, store)
  else if pathStartsWith path "/auth/reset-password/" then (.next none, store)
  else
    match cookie with
    | none => (.redirect "/auth/login" 303, store)
    | some tok =>
      if tok = "" then (.redirect "/auth/login" 303, store)
      else
        match store tok with
        | none => (.redirect "/auth/login" 303, store)
        | some s =>
          if s.expiry < now then (.redirect "/auth/login" 303, eraseToken store tok)
          else (.next (some (sessionUser s)), store)

/-- The `admin_paths` prefix list of `admin_only` (middleware.py:66-68). -/
def admin_paths : List String := ["/users"]

/-- Outcome of the `admin_only` middleware alone: pass the request on,
or abort with a redirect. -/
inductive AdminResult where
  | proceed
  | redirect (location : String) (statusCode : Nat)
deriving DecidableEq, Repr

/-- Embeds `middleware.admin_only` (middleware.py:61-97): requests outside the
admin prefixes pass through; otherwise a falsy or unknown token is
redirected to the login page, and a session whose stored role is not
the exact string `"admin"` is redirected to the application root.
No expiry check and no deletion happen here. -/
def admin_only (path : String) (cookie : Option Token) (store : Store) : AdminResult :=
  if !(admin_paths.any (fun p => pathStartsWith path p)) then .proceed
  else
    match cookie with
    | none => .redirect "/auth/login" 303
    | some tok =>
      if tok = "" then .redirect "/auth/login" 303
      else
        match store tok with
        | none => .redirect "/auth/login" 303
        | some s =>
          if s.role = "admin" then .proceed else .redirect "/" 303

/-- The composed authentication/authorization pipeline of `main.py`
(main.py:63-71): Starlette prepends each added middleware, so the
admin gate (added last) runs before the authentication gate. -/
def gate (path : String) (cookie : Option Token) (store : Store) (now : Nat) :
    GateResult × Store :=
  match admin_only path cookie store with
  | .redirect l c => (.redirect l c, store)
  | .proceed => require_auth path cookie store now

example :
    (require_auth "/healthz" none emptyStore 0).1 = .redirect "/auth/login" 303 := by decide
example :
    (require_auth "/auth/loginX" none emptyStore 0).1 = .next none := by decide
example :
    (gate "/users" (some "tk")
      (create_session emptyStore "tk" 1 "teknisi" "n" "e" 0) 5).1 = .redirect "/" 303 := by decide

/-! ## The two readings of the assignment-resolver claim

`resolveEntryAmended` is the per-entry resolution as the code performs
it; `resolveEntryClaim` is the literal reading of the claim's priority
clauses, under which a present but non-coercible `user_id` falls
through to the embedded user reference. The two differ exactly on that
input, which settles the claim. -/

/-- Per-entry resolution as the code performs it: the `user_id` field,
when present and non-`None`, is selected outright and its coercion
failure drops the entry; otherwise the loaded user reference's id;
otherwise the guarded last-resort fallback on the entry's own id. -/
def resolveEntryAmended (e : AssignEntry) : Option Int :=
  match e.user_id.join with
  | some v => pyToInt v
  | none =>
    match e.user.join with
    | some u =>
      match u.oid with
      | some v => pyToInt v
      | none =>
        if e.aid.isSome && e.user.isNone && e.user_id.isNone then e.aid.join.bind pyToInt
        else none
    | none =>
      if e.aid.isSome && e.user.isNone && e.user_id.isNone then e.aid.join.bind pyToInt
      else none

/-- Per-entry resolution under the literal reading of the claim's
priority clauses: tier (1) applies only when the `user_id` field is
present AND integer-coercible, so a present but non-coercible value
falls through to tier (2), the embedded user reference. -/
def resolveEntryClaim (e : AssignEntry) : Option Int :=
  match e.user_id.join.bind pyToInt with
  | some n => some n
  | none =>
    match e.user.join with
    | some u => u.oid.bind pyToInt
    | none =>
      if e.aid.isSome && e.user.isNone && e.user_id.isNone then e.aid.join.bind pyToInt
      else none

/-! ## Helper lemmas -/

theorem resolveEntryAmended_eq (e : AssignEntry) :
    resolveEntryAmended e = (selectUid e).bind pyToInt := by
  rcases e with ⟨ui, ur, ai⟩
  rcases ui with _ | (_ | v) <;>
    rcases ur with _ | (_ | ⟨_ | w⟩) <;>
      rcases ai with _ | (_ | a) <;> rfl

theorem mem_extract_foldl (l : List AssignEntry) (s : Finset Int) (x : Int) :
    x ∈ l.foldl (fun s e =>
        match (selectUid e).bind pyToInt with
        | some n => insert n s
        | none => s) s ↔
      x ∈ s ∨ ∃ e ∈ l, (selectUid e).bind pyToInt = some x := by
  induction l generalizing s with
  | nil => simp
  | cons a l ih =>
    rw [List.foldl_cons, ih]
    rcases h : (selectUid a).bind pyToInt with _ | n
    · simp [h, List.mem_cons, or_assoc]
    · simp [h, List.mem_cons, or_assoc]
      tauto

theorem users_admin_match (rest : String) :
    (admin_paths.any fun p => pathStartsWith ("/users" ++ rest) p) = true := by
  cases rest
  rfl

theorem users_not_public (rest : String) :
    (public_paths.any fun p => pathStartsWith ("/users" ++ rest) p) = false := by
  cases rest
  rfl

theorem users_not_reset (rest : String) :
    pathStartsWith ("/users" ++ rest) "/auth/reset-password/" = false := by
  cases rest
  rfl

/-! ## The claims -/

/-- Claim C1, counterexample. The claim asserts that `is_assigned_to_pm`
returns false whenever the job is absent (`None`) regardless of the
principal's role; but the admin/supervisor short-circuit precedes the
`job is None` check (authz.py:78-81), so an admin principal with an
absent job yields `True`. -/
theorem c1_admin_absent_job_counterexample :
    is_assigned_to_pm (some { uid := some (.vint 1), role := some (.vstr "admin") }) none = true ∧
    is_assigned_to_workshop (some { uid := some (.vint 1), role := some (.vstr "admin") }) none = true := by
  decide

/-- Claim C1, amended: `is_assigned_to_pm` and `is_assigned_to_workshop`
return false for an absent principal (for every job), and for an absent
job provided the principal is neither admin nor supervisor; an admin or
supervisor principal gets true for every job, the absent one included,
in particular for a job with an empty assignment list. -/
theorem c1_absent_principal_or_job :
    (∀ job, is_assigned_to_pm none job = false ∧ is_assigned_to_workshop none job = false) ∧
    (∀ cu, is_admin cu = false → is_supervisor cu = false →
      is_assigned_to_pm cu none = false ∧ is_assigned_to_workshop cu none = false) ∧
    (∀ cu job, is_admin cu = true ∨ is_supervisor cu = true →
      is_assigned_to_pm cu job = true ∧ is_assigned_to_workshop cu job = true) := by
  refine ⟨fun job => ?_, fun cu h1 h2 => ?_, fun cu job h => ?_⟩
  · rcases job with _ | j <;>
      exact ⟨by simp [is_assigned_to_pm, is_admin, is_supervisor, _normalized_role, _safe_user_id],
             by simp [is_assigned_to_workshop, is_admin, is_supervisor, _normalized_role, _safe_user_id]⟩
  · rcases hid : _safe_user_id cu with _ | uid <;>
      constructor <;> simp [is_assigned_to_pm, is_assigned_to_workshop, h1, h2, hid]
  · rcases h with h | h <;> constructor <;> simp [is_assigned_to_pm, is_assigned_to_workshop, h]

/-- Claim C1, witness: the amended theorem applied to a teknisi
principal with an absent job, to an admin principal with a job whose
assignment list is empty, and to a supervisor principal with an absent
job (the short-circuit case). -/
theorem c1_absent_principal_or_job_witness :
    is_assigned_to_pm (some { role := some (.vstr "teknisi") }) none = false ∧
    is_assigned_to_pm (some { uid := some (.vint 1), role := some (.vstr "admin") })
      (some { assigned := some [] }) = true ∧
    is_assigned_to_pm (some { uid := some (.vint 2), role := some (.vstr "supervisor") })
      none = true :=
  ⟨(c1_absent_principal_or_job.2.1 _ (by decide) (by decide)).1,
   (c1_absent_principal_or_job.2.2 _ _ (Or.inl (by decide))).1,
   (c1_absent_principal_or_job.2.2 _ none (Or.inr (by decide))).1⟩

/-- Claim C2, counterexample. The claim (and the spec's "expiresAt ≤ now
removes the entry") asserts Validate at any time t ≥ T returns absent;
but the code tests `session["expiry"] < datetime.now()` strictly
(middleware.py:41, auth.py:49), so at exactly t = T the session is
still returned as valid. -/
theorem c2_validate_at_expiry_instant_counterexample :
    (validate_session (create_session emptyStore "t" 1 "teknisi" "n" "e" 0)
        (some "t") sessionLifetime).1 =
      some ⟨1, "teknisi", "n", "e", sessionLifetime⟩ := by
  decide

/-- Claim C2, amended: Validate at any time strictly after the expiry
instant T returns absent and removes the entry from the table, so every
subsequent Validate of the same token at any time also returns absent
and leaves the token absent — the token is purged, not merely skipped.
At exactly t = T the session is still returned (the expiry test is
strict). -/
theorem c2_validate_purges_after_expiry :
    ∀ (store : Store) (tok : Token) (s : SessionRec) (now : Nat),
      tok ≠ "" → store tok = some s → s.expiry < now →
      (validate_session store (some tok) now).1 = none ∧
      (validate_session store (some tok) now).2 tok = none ∧
      ∀ now' : Nat,
        (validate_session (validate_session store (some tok) now).2 (some tok) now').1 = none ∧
        (validate_session (validate_session store (some tok) now).2 (some tok) now').2 tok = none := by
  intro store tok s now htok hlook hexp
  have h1 : validate_session store (some tok) now = (none, eraseToken store tok) := by
    simp [validate_session, htok, hlook, hexp]
  have herase : eraseToken store tok tok = none := by simp [eraseToken]
  rw [h1]
  exact ⟨rfl, herase, fun now' => by simp [validate_session, htok, herase]⟩

/-- Claim C2, witness: the amended theorem applied one second after the
24-hour expiry of a concrete session. -/
theorem c2_validate_purges_after_expiry_witness :
    (validate_session (create_session emptyStore "t" 1 "r" "n" "e" 0) (some "t") 86401).1 = none ∧
    (validate_session (create_session emptyStore "t" 1 "r" "n" "e" 0) (some "t") 86401).2 "t" = none := by
  have h := c2_validate_purges_after_expiry
    (create_session emptyStore "t" 1 "r" "n" "e" 0) "t"
    ⟨1, "r", "n", "e", 86400⟩ 86401 (by decide) (by decide) (by decide)
  exact ⟨h.1, h.2.1⟩

/-- Claim C3, counterexample. The claim includes the health check in
the public allowlist; but `public_paths` (middleware.py:14-19) holds
only the login/logout/forgot-password/static prefixes (plus the
reset-password prefix, middleware.py:26), so an unauthenticated
request to `/healthz` is redirected to the login page instead of
reaching its handler. -/
theorem c3_healthz_not_allowlisted_counterexample :
    (require_auth "/healthz" none emptyStore 0).1 = .redirect "/auth/login" 303 := by
  decide

/-- Claim C3, amended: every request whose path matches the public
allowlist — login, logout, forgot-password, the tokenised
reset-password flow, and static assets — bypasses the authentication
gate entirely (no session lookup, no identity attached, table
untouched); the health check is NOT allowlisted, and an unauthenticated
request to it is redirected to the login page. -/
theorem c3_public_allowlist_bypass :
    (∀ (path : String) (cookie : Option Token) (store : Store) (now : Nat),
      (public_paths.any fun p => pathStartsWith path p) = true →
      require_auth path cookie store now = (.next none, store)) ∧
    (∀ (path : String) (cookie : Option Token) (store : Store) (now : Nat),
      pathStartsWith path "/auth/reset-password/" = true →
      require_auth path cookie store now = (.next none, store)) ∧
    (∀ (store : Store) (now : Nat),
      (require_auth "/healthz" none store now).1 = .redirect "/auth/login" 303) := by
  refine ⟨fun path cookie store now h => ?_, fun path cookie store now h => ?_,
    fun store now => rfl⟩
  · simp [require_auth, h]
  · by_cases hp : (public_paths.any fun p => pathStartsWith path p) = true <;>
      simp [require_auth, hp, h]

/-- Claim C3, witness: the amended theorem applied to the login path
and to a tokenised reset-password path. -/
theorem c3_public_allowlist_bypass_witness :
    require_auth "/auth/login" none emptyStore 0 = (.next none, emptyStore) ∧
    require_auth "/auth/reset-password/abc" none emptyStore 0 = (.next none, emptyStore) :=
  ⟨c3_public_allowlist_bypass.1 "/auth/login" none emptyStore 0 (by decide),
   c3_public_allowlist_bypass.2.1 "/auth/reset-password/abc" none emptyStore 0 (by decide)⟩

/-- Claim C4, counterexample. The claim asserts the admin gate applies
the `IsAdmin` predicate (trimmed, case-folded equality with "admin");
but `admin_only` compares the raw stored role with the exact string
`"admin"` (middleware.py:89). A valid unexpired session whose role is
`"Admin"` satisfies `is_admin` on the derived principal, yet the gate
redirects the request to the root and the handler is never reached. -/
theorem c4_case_variant_admin_counterexample :
    is_admin (some (sessionUser ⟨1, "Admin", "n", "e", 86400⟩)) = true ∧
    (validate_session (create_session emptyStore "tk" 1 "Admin" "n" "e" 0) (some "tk") 5).1 =
      some ⟨1, "Admin", "n", "e", 86400⟩ ∧
    (gate "/users" (some "tk") (create_session emptyStore "tk" 1 "Admin" "n" "e" 0) 5).1 =
      .redirect "/" 303 := by
  decide

/-- Claim C4, amended: for a request to a path under `/users` carrying
a valid unexpired session, the gate tests the session's stored role for
raw string equality with `"admin"`: when the role is exactly `"admin"`
the request reaches the handler with the session's principal attached,
and for any other role string (`"teknisi"`, but also case variants such
as `"Admin"`) the response is a 303 redirect to the application root
and the handler is never reached. -/
theorem c4_admin_gate_exact_role :
    ∀ (rest : String) (tok : Token) (store : Store) (s : SessionRec) (now : Nat),
      tok ≠ "" → store tok = some s → ¬(s.expiry < now) →
      (s.role = "admin" →
        gate ("/users" ++ rest) (some tok) store now = (.next (some (sessionUser s)), store)) ∧
      (s.role ≠ "admin" →
        (gate ("/users" ++ rest) (some tok) store now).1 = .redirect "/" 303) := by
  intro rest tok store s now htok hlook hexp
  constructor
  · intro hrole
    simp [gate, admin_only, require_auth, users_admin_match, users_not_public,
      users_not_reset, htok, hlook, hexp, hrole]
  · intro hrole
    simp [gate, admin_only, users_admin_match, htok, hlook, hrole]

/-- Claim C4, witness: the amended theorem applied to a concrete store
holding an `"admin"` session and to one holding a `"teknisi"` session. -/
theorem c4_admin_gate_exact_role_witness :
    gate "/users" (some "tk") (create_session emptyStore "tk" 1 "admin" "n" "e" 0) 5 =
      (.next (some (sessionUser ⟨1, "admin", "n", "e", 86400⟩)),
        create_session emptyStore "tk" 1 "admin" "n" "e" 0) ∧
    (gate "/users" (some "tk") (create_session emptyStore "tk" 1 "teknisi" "n" "e" 0) 5).1 =
      .redirect "/" 303 :=
  ⟨(c4_admin_gate_exact_role "" "tk" (create_session emptyStore "tk" 1 "admin" "n" "e" 0)
      ⟨1, "admin", "n", "e", 86400⟩ 5 (by decide) (by decide) (by decide)).1 rfl,
   (c4_admin_gate_exact_role "" "tk" (create_session emptyStore "tk" 1 "teknisi" "n" "e" 0)
      ⟨1, "teknisi", "n", "e", 86400⟩ 5 (by decide) (by decide) (by decide)).2 (by decide)⟩

/-- Claim C5: immediately after `create_session` (and at any instant
not strictly past the 24-hour expiry), validating the returned token
yields the session stored under exactly that token, whose user id,
role, name and email equal the `create_session` inputs, with the table
unchanged by the validation. -/
theorem c5_create_then_validate :
    ∀ (store : Store) (tok : Token) (user_id : Int) (role name email : String) (now now' : Nat),
      tok ≠ "" → ¬(now + sessionLifetime < now') →
      validate_session (create_session store tok user_id role name email now) (some tok) now' =
        (some ⟨user_id, role, name, email, now + sessionLifetime⟩,
         create_session store tok user_id role name email now) := by
  intro store tok user_id role name email now now' htok hexp
  simp [validate_session, create_session, htok, hexp]

/-- Claim C5, witness: the theorem applied to a concrete session
validated at the instant of its creation. -/
theorem c5_create_then_validate_witness :
    validate_session (create_session emptyStore "tk" 7 "teknisi" "Ani" "a@x" 100) (some "tk") 100 =
      (some ⟨7, "teknisi", "Ani", "a@x", 100 + sessionLifetime⟩,
       create_session emptyStore "tk" 7 "teknisi" "Ani" "a@x" 100) :=
  c5_create_then_validate emptyStore "tk" 7 "teknisi" "Ani" "a@x" 100 100
    (by decide) (by decide)

/-- Claim C6, counterexample. Under the claim's literal priority
clauses a present but non-coercible `user_id` falls through to the
embedded user reference (tier 2), resolving the job below to `{9}`;
but the code (authz.py:151-166) selects the `user_id` value by mere
presence and the failed `int("abc")` then drops the whole assignment,
resolving the job to the empty set. -/
theorem c6_noncoercible_userid_counterexample :
    _extract_assigned_user_ids
      { assigned := some [{ user_id := some (some (.vstr "abc")),
                            user := some (some { oid := some (.vint 9) }) }] } = ∅ ∧
    resolveEntryClaim
      { user_id := some (some (.vstr "abc")),
        user := some (some { oid := some (.vint 9) }) } = some 9 := by
  decide

/-- Claim C6, amended: for every job, the resolved set contains exactly
the integers produced per assignment record by: (1) the direct
`user_id` value when present and non-`None` — chosen by presence alone,
so a non-coercible value drops that single assignment without
consulting the user reference; (2) else the loaded user reference's id;
(3) else, only when the record exposes an `id` attribute and exposes
neither a `user_id` nor a `user` attribute, the record's own id; any
selected value on which integer coercion fails is dropped silently,
excluding only that assignment, and resolution is total — it never
raises. -/
theorem c6_resolver_characterization :
    ∀ (j : Job) (x : Int),
      x ∈ _extract_assigned_user_ids j ↔
        ∃ e ∈ j.assigned.getD [], resolveEntryAmended e = some x := by
  intro j x
  rcases j with ⟨_ | l⟩
  · simp [_extract_assigned_user_ids]
  · show x ∈ _extract_assigned_user_ids ⟨some l⟩ ↔ _
    rcases l with _ | ⟨a, l⟩
    · simp [_extract_assigned_user_ids]
    · rw [_extract_assigned_user_ids]
      simp only [List.isEmpty_cons, Option.getD_some]
      rw [if_neg (by simp), mem_extract_foldl]
      simp only [resolveEntryAmended_eq]
      simp

/-- Claim C7, counterexample. The claim asserts IsStandardUser holds
iff the normalized role is exactly `"teknisi"`; but `is_user`
(authz.py:59-67) also accepts `"user"` (documented in the code as a
forward-compatibility alias), so a principal with role `"user"` makes
the predicate true although the normalized role is not `"teknisi"`. -/
theorem c7_user_role_counterexample :
    is_user (some { role := some (.vstr "user") }) = true ∧
    _normalized_role (some { role := some (.vstr "user") }) ≠ "teknisi" := by
  decide

/-- Claim C7, amended: the three role predicates are total pure
functions of the trimmed, case-folded role string: `is_admin` holds iff
it is `"admin"`, `is_supervisor` iff `"supervisor"`, and `is_user` iff
it is `"teknisi"` or the forward-compatibility alias `"user"`; all
three return false for an absent principal and for a principal whose
role field is missing or not a string. -/
theorem c7_role_predicates_total :
    (∀ cu, (is_admin cu = true ↔ _normalized_role cu = "admin") ∧
      (is_supervisor cu = true ↔ _normalized_role cu = "supervisor") ∧
      (is_user cu = true ↔
        (_normalized_role cu = "user" ∨ _normalized_role cu = "teknisi"))) ∧
    (is_admin none = false ∧ is_supervisor none = false ∧ is_user none = false) ∧
    (∀ i n e, is_admin (some ⟨i, n, e, none⟩) = false ∧
      is_supervisor (some ⟨i, n, e, none⟩) = false ∧ is_user (some ⟨i, n, e, none⟩) = false) ∧
    (∀ i n e k, is_admin (some ⟨i, n, e, some (.vint k)⟩) = false ∧
      is_supervisor (some ⟨i, n, e, some (.vint k)⟩) = false ∧
      is_user (some ⟨i, n, e, some (.vint k)⟩) = false) ∧
    (∀ i n e, is_admin (some ⟨i, n, e, some .vother⟩) = false ∧
      is_supervisor (some ⟨i, n, e, some .vother⟩) = false ∧
      is_user (some ⟨i, n, e, some .vother⟩) = false) := by
  refine ⟨fun cu => ⟨?_, ?_, ?_⟩, by decide, fun i n e => ?_, fun i n e k => ?_, fun i n e => ?_⟩
  · simp [is_admin]
  · simp [is_supervisor]
  · simp [is_user, or_comm]
  · exact ⟨by simp [is_admin, _normalized_role], by simp [is_supervisor, _normalized_role],
      by simp [is_user, _normalized_role]⟩
  · exact ⟨by simp [is_admin, _normalized_role], by simp [is_supervisor, _normalized_role],
      by simp [is_user, _normalized_role]⟩
  · exact ⟨by simp [is_admin, _normalized_role], by simp [is_supervisor, _normalized_role],
      by simp [is_user, _normalized_role]⟩

/-- Claim C8: a token the store never issued validates to absent with
the table unchanged, and a protected request (path outside the public
allowlist) presenting a missing, empty or store-absent token is
answered by the composed middleware pipeline with a 303 see-other
redirect to the login path — the handler is never reached and no
principal is attached (the redirect outcome carries none). -/
theorem c8_unknown_token_redirect :
    (∀ (store : Store) (tok : Token) (now : Nat), store tok = none →
      (validate_session store (some tok) now).1 = none ∧
      (validate_session store (some tok) now).2 = store) ∧
    (∀ (path : String) (cookie : Option Token) (store : Store) (now : Nat),
      (public_paths.any fun p => pathStartsWith path p) = false →
      pathStartsWith path "/auth/reset-password/" = false →
      (cookie = none ∨ ∃ tok, cookie = some tok ∧ (tok = "" ∨ store tok = none)) →
      gate path cookie store now = (.redirect "/auth/login" 303, store)) := by
  constructor
  · intro store tok now hlook
    by_cases htok : tok = "" <;> simp [validate_session, htok, hlook]
  · intro path cookie store now hpub hreset hcookie
    rcases hcookie with rfl | ⟨tok, rfl, htok⟩
    · by_cases hadm : (admin_paths.any fun p => pathStartsWith path p) = true <;>
        simp [gate, admin_only, require_auth, hadm, hpub, hreset]
    · rcases htok with rfl | hlook
      · by_cases hadm : (admin_paths.any fun p => pathStartsWith path p) = true <;>
          simp [gate, admin_only, require_auth, hadm, hpub, hreset]
      · by_cases htok : tok = "" <;>
          by_cases hadm : (admin_paths.any fun p => pathStartsWith path p) = true <;>
          simp [gate, admin_only, require_auth, hadm, hpub, hreset, htok, hlook]

/-- Claim C8, witness: the theorem applied to a never-issued token and
to a protected request with no cookie against the empty store. -/
theorem c8_unknown_token_redirect_witness :
    (validate_session emptyStore (some "ghost") 0).1 = none ∧
    gate "/pm/jobs" none emptyStore 0 = (.redirect "/auth/login" 303, emptyStore) :=
  ⟨(c8_unknown_token_redirect.1 emptyStore "ghost" 0 (by decide)).1,
   c8_unknown_token_redirect.2 "/pm/jobs" none emptyStore 0 (by decide) (by decide)
     (Or.inl rfl)⟩

/-- Claim C9 (implicit): both lists are matched by raw string prefix on
the request path: every path extending the `/auth/login` or
`/auth/forgot-password` prefixes (for example `/auth/loginX` and
`/auth/forgot-passwordX`) bypasses authentication entirely, and the
admin gate acts on every path beginning with `/users`, not only the
exact allowlisted routes — with no cookie it redirects to login, with a
non-admin session it redirects to the root. -/
theorem c9_prefix_matching :
    (∀ (rest : String) (cookie : Option Token) (store : Store) (now : Nat),
      require_auth ("/auth/login" ++ rest) cookie store now = (.next none, store)) ∧
    (∀ (rest : String) (cookie : Option Token) (store : Store) (now : Nat),
      require_auth ("/auth/forgot-password" ++ rest) cookie store now = (.next none, store)) ∧
    (∀ (rest : String) (store : Store),
      admin_only ("/users" ++ rest) none store = .redirect "/auth/login" 303) ∧
    (∀ (rest : String) (tok : Token) (store : Store) (s : SessionRec),
      tok ≠ "" → store tok = some s → s.role ≠ "admin" →
      admin_only ("/users" ++ rest) (some tok) store = .redirect "/" 303) := by
  refine ⟨fun rest cookie store now => ?_, fun rest cookie store now => ?_,
    fun rest store => ?_, fun rest tok store s htok hlook hrole => ?_⟩
  · cases rest; rfl
  · cases rest; rfl
  · cases rest; rfl
  · simp [admin_only, users_admin_match, htok, hlook, hrole]

/-- Claim C9, witness: the theorem applied to the paths named in the
claim, `/auth/loginX` and `/auth/forgot-passwordX`, and to `/usersX`
with a teknisi session. -/
theorem c9_prefix_matching_witness :
    require_auth "/auth/loginX" none emptyStore 0 = (.next none, emptyStore) ∧
    require_auth "/auth/forgot-passwordX" none emptyStore 0 = (.next none, emptyStore) ∧
    admin_only "/usersX" (some "t") (create_session emptyStore "t" 1 "teknisi" "n" "e" 0) =
      .redirect "/" 303 :=
  ⟨c9_prefix_matching.1 "X" none emptyStore 0,
   c9_prefix_matching.2.1 "X" none emptyStore 0,
   c9_prefix_matching.2.2.2 "X" "t" (create_session emptyStore "t" 1 "teknisi" "n" "e" 0)
     ⟨1, "teknisi", "n", "e", 86400⟩ (by decide) (by decide) (by decide)⟩

/-- Claim C10 (implicit): `create_session` only inserts under its fresh
token and neither removes nor alters any other entry; `logout` removes
only the single token presented in the cookie; hence after a second
login the previously issued token still holds its old record and still
validates until its own expiry — multiple live sessions for one user
coexist. -/
theorem c10_create_frame :
    (∀ (store : Store) (tok : Token) (user_id : Int) (role name email : String)
      (now : Nat) (t : Token), t ≠ tok →
      create_session store tok user_id role name email now t = store t) ∧
    (∀ (store : Store) (tok t : Token), t ≠ tok → logout store (some tok) t = store t) ∧
    (∀ (store : Store) (tok1 : Token) (s1 : SessionRec) (tok2 : Token) (user_id : Int)
      (role name email : String) (now now' : Nat),
      tok1 ≠ "" → tok1 ≠ tok2 → store tok1 = some s1 → ¬(s1.expiry < now') →
      (validate_session (create_session store tok2 user_id role name email now)
        (some tok1) now').1 = some s1) := by
  refine ⟨fun store tok user_id role name email now t ht => ?_,
    fun store tok t ht => ?_,
    fun store tok1 s1 tok2 user_id role name email now now' h1 h2 h3 h4 => ?_⟩
  · simp [create_session, ht]
  · rcases hl : store tok with _ | s <;>
      by_cases htok : tok = "" <;> simp [logout, eraseToken, hl, htok, ht]
  · have hkeep : create_session store tok2 user_id role name email now tok1 = some s1 := by
      simp [create_session, h2, h3]
    simp [validate_session, h1, hkeep, h4]

/-- Claim C10, witness: after a second login under a fresh token, the
first concrete session still validates; creation and logout leave an
unrelated key untouched. -/
theorem c10_create_frame_witness :
    create_session emptyStore "a" 1 "r" "n" "e" 0 "b" = emptyStore "b" ∧
    logout (create_session emptyStore "a" 1 "r" "n" "e" 0) (some "a") "b" =
      create_session emptyStore "a" 1 "r" "n" "e" 0 "b" ∧
    (validate_session
      (create_session (create_session emptyStore "t1" 1 "r" "n" "e" 0) "t2" 1 "r" "n" "e" 3)
      (some "t1") 4).1 = some ⟨1, "r", "n", "e", 86400⟩ :=
  ⟨c10_create_frame.1 emptyStore "a" 1 "r" "n" "e" 0 "b" (by decide),
   c10_create_frame.2.1 (create_session emptyStore "a" 1 "r" "n" "e" 0) "a" "b" (by decide),
   c10_create_frame.2.2 (create_session emptyStore "t1" 1 "r" "n" "e" 0) "t1"
     ⟨1, "r", "n", "e", 86400⟩ "t2" 1 "r" "n" "e" 3 4 (by decide) (by decide)
     (by decide) (by decide)⟩
